import Mathlib

/-!
Trainer controller (`pkg/cli/serve/controller/trainer.go`)

A shallow embedding of the ten HTTP handlers of `TrainerController` and of
`RegisterRoutes`.

What the controller file calls but does not define is a parameter of the model:

* `Types` collects the types declared in the `dto` / model packages whose
  declarations are not part of the file, and the `float64 → uint` conversion;
* `Env` collects `jwt.Parse` (with its key function), `utils.ValidateUser` and the
  nine functions of the service package, the latter as state transformers over an
  arbitrary store `σ`.

Every service call goes through `invoke`, which appends the call and the error it
returned (if any) to the trace of the `World`.  Output on stdout (`fmt.Println`) is
not modelled, and `ctx.JSON` is taken to succeed.
-/

namespace TrainerController

/-! ## Externally declared types -/

/-- Types (and the one primitive conversion) that the controller uses and does not declare. -/
structure Types where
  /-- Go `error` values. -/
  Err : Type
  /-- Go `float64`, the type of JSON numbers inside `jwt.MapClaims`. -/
  Float64 : Type
  /-- The conversion `uint(f)` of a `float64`. -/
  toUint : Float64 → Nat
  /-- Scalar attributes that are only copied from a model to a DTO. -/
  Attr : Type
  /-- Zero value of `Attr` (a DTO field that is left unset). -/
  zeroAttr : Attr
  Sports : Type
  Achievements : Type
  Education : Type
  /-- Type of one day of `ActiveDays`. -/
  Day : Type
  /-- The type `dto.UserEditTraineeOrTrainer`. -/
  UserEdit : Type
  /-- Result type of `serve.EditTrainerProfile`. -/
  EditedTrainer : Type
  /-- Fields of `dto.TrainerSetPrice` other than `TrainerID`. -/
  SetPriceFields : Type
  /-- Fields of `dto.TrainingProgram` other than `TrainerID`. -/
  ProgramFields : Type
  /-- The type `dto.AddSportActivity`. -/
  Activity : Type
  /-- Fields of `dto.Report` other than `UserID`. -/
  ReportFields : Type

/-- Value of `http.StatusOK`, the status of a response on which `ctx.Status` was not called. -/
def StatusOK : Nat := 200
/-- Value of `http.StatusBadRequest`. -/
def StatusBadRequest : Nat := 400
/-- Value of `http.StatusUnauthorized`. -/
def StatusUnauthorized : Nat := 401

/-- Conversion `uint(x)` of a signed integer on a 64-bit platform. -/
def uint (x : Int) : Nat := (x % 2 ^ 64).toNat

/-! ## Persistence models (only the fields the controller reads) -/

structure User (T : Types) where
  ID : Nat
  FirstName : String
  LastName : String
  Email : T.Attr

structure ActiveDays (T : Types) where
  Monday : T.Day
  Tuesday : T.Day
  Wednesday : T.Day
  Thursday : T.Day
  Friday : T.Day
  Saturday : T.Day
  Sunday : T.Day

structure Trainer (T : Types) where
  ID : Nat
  UserName : T.Attr
  User : User T
  Status : T.Attr
  CoachExperience : T.Attr
  Contact : T.Attr
  Language : T.Attr
  Country : T.Attr
  Sport : T.Sports
  Achievements : T.Achievements
  Education : T.Education
  TraineeIDs : List Int
  ActiveDays : ActiveDays T

structure Trainee (T : Types) where
  User : User T

/-- Element type of the result of `serve.GetRequests`. -/
structure Request (T : Types) where
  TraineeName : T.Attr
  Date : T.Attr
  Price : T.Attr
  Status : T.Attr

/-- Result type of `serve.SetPrice`. -/
structure ProgramRequest (T : Types) where
  ID : Nat
  TraineeID : Nat
  Price : T.Attr
  Description : T.Attr
  Status : T.Attr

/-- Result type of `serve.CreateTrainingProgram`. -/
structure Program where
  ID : Nat

/-- Result type of `serve.AddSportActivity`. -/
structure SportActivity where
  ID : Nat

/-- Result type of `serve.AddReport`. -/
structure ReportModel (T : Types) where
  Description : T.Attr

/-! ## DTOs -/

namespace dto

structure TrainerSetPrice (T : Types) where
  TrainerID : Nat
  fields : T.SetPriceFields

structure TrainingProgram (T : Types) where
  TrainerID : Nat
  fields : T.ProgramFields

structure Report (T : Types) where
  UserID : Nat
  fields : T.ReportFields

structure TrainerProfileCard (T : Types) where
  FirstName : String
  LastName : String
  UserName : T.Attr
  Email : T.Attr
  Status : T.Attr
  CoachExperience : T.Attr
  Contact : T.Attr
  Language : T.Attr
  Country : T.Attr

structure TrainerResponse (T : Types) where
  TrainerProfileCard : TrainerProfileCard T
  ID : Nat
  FirstName : String
  LastName : String
  Sports : T.Sports
  Achievements : T.Achievements
  Education : T.Education

structure TraineeInTrainerPage where
  Name : String

structure RequestsInTrainerPage (T : Types) where
  TraineeName : T.Attr
  Date : T.Attr
  Price : T.Attr
  Status : T.Attr

structure ProgramRequestSetPrice (T : Types) where
  ID : Nat
  TrainerID : Nat
  TraineeID : Nat
  Price : T.Attr
  Description : T.Attr
  Status : T.Attr

structure Response where
  Message : String
  Success : Bool
  ID : Nat

structure ReportResponse (T : Types) where
  Description : T.Attr

structure WeekPlan (T : Types) where
  Monday : T.Day
  Tuesday : T.Day
  Wednesday : T.Day
  Thursday : T.Day
  Friday : T.Day
  Saturday : T.Day
  Sunday : T.Day

end dto

/-! ## Tokens -/

/-- A value stored in `jwt.MapClaims` (an `interface{}`). -/
inductive ClaimValue (T : Types) where
  /-- The nil interface: what indexing the map gives for an absent key, and JSON `null`. -/
  | null
  | float64 (f : T.Float64)
  | string (s : String)
  | bool (b : Bool)
  /-- A JSON array or object. -/
  | composite

/-- The map `jwt.MapClaims`, read by indexing. -/
abbrev MapClaims (T : Types) := String → ClaimValue T

/-- The `*jwt.Token` returned by `jwt.Parse`: `Claims` is `none` when the claims are not a
`jwt.MapClaims`. -/
structure Token (T : Types) where
  Claims : Option (MapClaims T)
  Valid : Bool

/-! ## Requests, responses, service calls -/

/-- The part of `*fiber.Ctx` that the handlers read: the header getter and, for each payload
type, the result of `ctx.BodyParser` into a zero value of that type. -/
structure Ctx (T : Types) where
  Get : String → String
  BodyParserUserEdit : Except T.Err T.UserEdit
  BodyParserTrainerSetPrice : Except T.Err (dto.TrainerSetPrice T)
  BodyParserTrainingProgram : Except T.Err (dto.TrainingProgram T)
  BodyParserAddSportActivity : Except T.Err T.Activity
  BodyParserReport : Except T.Err (dto.Report T)

/-- The argument of `utils.ValidateUser` (an `interface{}`). -/
inductive Payload (T : Types) where
  | userEdit (p : T.UserEdit)
  | trainerSetPrice (p : dto.TrainerSetPrice T)
  | trainingProgram (p : dto.TrainingProgram T)
  | addSportActivity (p : T.Activity)
  | report (p : dto.Report T)

/-- What is passed to `ctx.JSON`. -/
inductive Body (T : Types) where
  /-- The map `fiber.Map{"message": m}` for a string `m`. -/
  | message (m : String)
  /-- The map `fiber.Map{"message": err}` for an error `err`. -/
  | messageErr (err : T.Err)
  | editedTrainer (t : T.EditedTrainer)
  | trainerResponse (r : dto.TrainerResponse T)
  | trainees (l : List dto.TraineeInTrainerPage)
  | requests (l : List (dto.RequestsInTrainerPage T))
  | programRequestSetPrice (r : dto.ProgramRequestSetPrice T)
  | response (r : dto.Response)
  | trainers (l : List (dto.TrainerResponse T))
  | reportResponse (r : dto.ReportResponse T)
  | weekPlan (p : dto.WeekPlan T)

/-- How a handler ends. -/
inductive Outcome (T : Types) where
  /-- A response was written with `ctx.Status(status).JSON(body)` and `nil` returned. -/
  | response (status : Nat) (body : Body T)
  /-- The handler returned the error `e` and wrote nothing. -/
  | error (e : T.Err)
  /-- A type assertion failed: runtime panic. -/
  | panic

/-- A call of a function of the service package, with its arguments. -/
inductive Call (T : Types) where
  | GetTrainerByUserID (userID : Nat)
  | GetTraineeById (id : Nat)
  | GetRequests (trainer : Trainer T)
  | EditTrainerProfile (id : Nat) (payload : T.UserEdit)
  | SetPrice (payload : dto.TrainerSetPrice T)
  | CreateTrainingProgram (payload : dto.TrainingProgram T)
  | AddSportActivity (payload : T.Activity)
  | GetALLTrainers
  | AddReport (payload : dto.Report T)

/-- One entry of the trace: the call made and the error it returned, if any. -/
structure Event (T : Types) where
  call : Call T
  err : Option T.Err

/-- The store behind the service package and the trace of the calls made so far. -/
structure World (T : Types) (σ : Type) where
  state : σ
  trace : List (Event T)

/-- The functions the controller calls: `jwt.Parse` (with the key function reading
`JWT_SECRET_KEY`), `utils.ValidateUser`, and the service package. -/
structure Env (T : Types) (σ : Type) where
  Parse : String → Except T.Err (Token T)
  ValidateUser : Payload T → Option T.Err
  GetTrainerByUserID : Nat → σ → Except T.Err (Trainer T) × σ
  GetTraineeById : Nat → σ → Except T.Err (Trainee T) × σ
  GetRequests : Trainer T → σ → Except T.Err (List (Request T)) × σ
  EditTrainerProfile : Nat → T.UserEdit → σ → Except T.Err T.EditedTrainer × σ
  SetPrice : dto.TrainerSetPrice T → σ → Except T.Err (ProgramRequest T) × σ
  CreateTrainingProgram : dto.TrainingProgram T → σ → Except T.Err Program × σ
  AddSportActivity : T.Activity → σ → Except T.Err SportActivity × σ
  GetALLTrainers : σ → Except T.Err (List (Trainer T)) × σ
  AddReport : dto.Report T → σ → Except T.Err (ReportModel T) × σ

/-- Runs the service function `f` on the store and records the call `c` in the trace. -/
def invoke {T : Types} {σ α : Type} (c : Call T) (f : σ → Except T.Err α × σ)
    (w : World T σ) : Except T.Err α × World T σ :=
  match f w.state with
  | (.ok a, s) => (.ok a, ⟨s, w.trace ++ [⟨c, none⟩]⟩)
  | (.error e, s) => (.error e, ⟨s, w.trace ++ [⟨c, some e⟩]⟩)

/-- Result of a handler: how it ended, and the world it left. -/
abbrev Result (T : Types) (σ : Type) := Outcome T × World T σ

variable {T : Types} {σ : Type}

/-! ## Handlers -/

/-- Handler `EditProfile`, lines 42-77. -/
def EditProfile (env : Env T σ) (ctx : Ctx T) (w : World T σ) : Result T σ :=
  let tokenHeader := ctx.Get "Authorization"
  if tokenHeader = "" then
    (.response StatusBadRequest (.message "Authorization header missing or invalid"), w)
  else
    match env.Parse tokenHeader with
    | .error _ => (.response StatusUnauthorized (.message "Invalid JWT token"), w)
    | .ok token =>
      match token.Claims, token.Valid with
      | some claims, true =>
        match claims "user_id" with
        | .float64 f =>
          let userID := T.toUint f
          match ctx.BodyParserUserEdit with
          | .error _ => (.response StatusBadRequest (.message "Invalid request payload"), w)
          | .ok trainer =>
            match env.ValidateUser (.userEdit trainer) with
            | some err => (.response StatusBadRequest (.messageErr err), w)
            | none =>
              match invoke (.GetTrainerByUserID userID) (env.GetTrainerByUserID userID) w with
              | (.error err, w1) => (.error err, w1)
              | (.ok trainerModel, w1) =>
                -- `uint64(trainerModel.ID)`: `ID` is an unsigned key, the conversion keeps it
                match invoke (.EditTrainerProfile trainerModel.ID trainer)
                    (env.EditTrainerProfile trainerModel.ID trainer) w1 with
                | (.error err, w2) => (.error err, w2)
                | (.ok newTrainer, w2) => (.response StatusOK (.editedTrainer newTrainer), w2)
        | _ => (.panic, w)
      | _, _ => (.response StatusUnauthorized (.message "Invalid JWT token"), w)

/-- Handler `GetTrainerProfile`, lines 90-130. -/
def GetTrainerProfile (env : Env T σ) (ctx : Ctx T) (w : World T σ) : Result T σ :=
  let tokenHeader := ctx.Get "Authorization"
  if tokenHeader = "" then
    (.response StatusBadRequest (.message "Authorization header missing or invalid"), w)
  else
    match env.Parse tokenHeader with
    | .error _ => (.response StatusUnauthorized (.message "Invalid JWT token"), w)
    | .ok token =>
      match token.Claims, token.Valid with
      | some claims, true =>
        match claims "user_id" with
        | .float64 f =>
          let userID := T.toUint f
          match invoke (.GetTrainerByUserID userID) (env.GetTrainerByUserID userID) w with
          | (.error err, w1) => (.error err, w1)
          | (.ok trainerModel, w1) =>
            let profileCard : dto.TrainerProfileCard T :=
              { FirstName := ""
                LastName := ""
                UserName := trainerModel.UserName
                Email := trainerModel.User.Email
                Status := trainerModel.Status
                CoachExperience := trainerModel.CoachExperience
                Contact := trainerModel.Contact
                Language := trainerModel.Language
                Country := trainerModel.Country }
            let trainerDto : dto.TrainerResponse T :=
              { TrainerProfileCard := profileCard
                ID := 0
                FirstName := ""
                LastName := ""
                Sports := trainerModel.Sport
                Achievements := trainerModel.Achievements
                Education := trainerModel.Education }
            (.response StatusOK (.trainerResponse trainerDto), w1)
        | _ => (.panic, w)
      | _, _ => (.response StatusUnauthorized (.message "Invalid JWT token"), w)

/-- The loop of `GetTrainees`, lines 170-179, followed by the final `ctx.JSON(trainees)`:
`trainees` is the slice built so far. -/
def GetTrainees.loop (env : Env T σ) :
    List Int → List dto.TraineeInTrainerPage → World T σ → Result T σ
  | [], trainees, w => (.response StatusOK (.trainees trainees), w)
  | traineeID :: rest, trainees, w =>
    match invoke (.GetTraineeById (uint traineeID)) (env.GetTraineeById (uint traineeID)) w with
    | (.error err, w1) => (.error err, w1)
    | (.ok trainee, w1) =>
      let traineeInfo : dto.TraineeInTrainerPage :=
        { Name := trainee.User.FirstName ++ " " ++ trainee.User.LastName }
      GetTrainees.loop env rest (trainees ++ [traineeInfo]) w1

/-- Handler `GetTrainees`, lines 144-182. -/
def GetTrainees (env : Env T σ) (ctx : Ctx T) (w : World T σ) : Result T σ :=
  let tokenHeader := ctx.Get "Authorization"
  if tokenHeader = "" then
    (.response StatusBadRequest (.message "Authorization header missing or invalid"), w)
  else
    match env.Parse tokenHeader with
    | .error _ => (.response StatusUnauthorized (.message "Invalid JWT token"), w)
    | .ok token =>
      match token.Claims, token.Valid with
      | some claims, true =>
        match claims "user_id" with
        | .float64 f =>
          let userID := T.toUint f
          match invoke (.GetTrainerByUserID userID) (env.GetTrainerByUserID userID) w with
          | (.error err, w1) => (.error err, w1)
          | (.ok trainerModel, w1) => GetTrainees.loop env trainerModel.TraineeIDs [] w1
        | _ => (.panic, w)
      | _, _ => (.response StatusUnauthorized (.message "Invalid JWT token"), w)

/-- Handler `GetAllRequests`, lines 195-232. -/
def GetAllRequests (env : Env T σ) (ctx : Ctx T) (w : World T σ) : Result T σ :=
  let tokenHeader := ctx.Get "Authorization"
  if tokenHeader = "" then
    (.response StatusBadRequest (.message "Authorization header missing or invalid"), w)
  else
    match env.Parse tokenHeader with
    | .error _ => (.response StatusUnauthorized (.message "Invalid JWT token"), w)
    | .ok token =>
      match token.Claims, token.Valid with
      | some claims, true =>
        match claims "user_id" with
        | .float64 f =>
          let userID := T.toUint f
          match invoke (.GetTrainerByUserID userID) (env.GetTrainerByUserID userID) w with
          | (.error err, w1) => (.error err, w1)
          | (.ok trainerModel, w1) =>
            match invoke (.GetRequests trainerModel) (env.GetRequests trainerModel) w1 with
            | (.error err, w2) => (.error err, w2)
            | (.ok requests, w2) =>
              -- the loop appends one DTO per request, in order
              let reqs : List (dto.RequestsInTrainerPage T) :=
                requests.map fun r =>
                  { TraineeName := r.TraineeName
                    Date := r.Date
                    Price := r.Price
                    Status := r.Status }
              (.response StatusOK (.requests reqs), w2)
        | _ => (.panic, w)
      | _, _ => (.response StatusUnauthorized (.message "Invalid JWT token"), w)

/-- Handler `SetPrice`, lines 246-290. -/
def SetPrice (env : Env T σ) (ctx : Ctx T) (w : World T σ) : Result T σ :=
  let tokenHeader := ctx.Get "Authorization"
  if tokenHeader = "" then
    (.response StatusBadRequest (.message "Authorization header missing or invalid"), w)
  else
    match env.Parse tokenHeader with
    | .error _ => (.response StatusUnauthorized (.message "Invalid JWT token"), w)
    | .ok token =>
      match token.Claims, token.Valid with
      | some claims, true =>
        match claims "user_id" with
        | .float64 f =>
          let userID := T.toUint f
          match invoke (.GetTrainerByUserID userID) (env.GetTrainerByUserID userID) w with
          | (.error err, w1) => (.error err, w1)
          | (.ok trainerModel, w1) =>
            match ctx.BodyParserTrainerSetPrice with
            | .error _ => (.response StatusBadRequest (.message "Invalid request payload"), w1)
            | .ok parsed =>
              let setPrice : dto.TrainerSetPrice T := { parsed with TrainerID := trainerModel.ID }
              match env.ValidateUser (.trainerSetPrice setPrice) with
              | some err => (.response StatusBadRequest (.messageErr err), w1)
              | none =>
                match invoke (.SetPrice setPrice) (env.SetPrice setPrice) w1 with
                | (.error err, w2) => (.error err, w2)
                | (.ok req, w2) =>
                  let res : dto.ProgramRequestSetPrice T :=
                    { ID := req.ID
                      TrainerID := trainerModel.ID
                      TraineeID := req.TraineeID
                      Price := req.Price
                      Description := req.Description
                      Status := req.Status }
                  (.response StatusOK (.programRequestSetPrice res), w2)
        | _ => (.panic, w)
      | _, _ => (.response StatusUnauthorized (.message "Invalid JWT token"), w)

/-- Handler `CreateTrainingProgram`, lines 304-346. -/
def CreateTrainingProgram (env : Env T σ) (ctx : Ctx T) (w : World T σ) : Result T σ :=
  let tokenHeader := ctx.Get "Authorization"
  if tokenHeader = "" then
    (.response StatusBadRequest (.message "Authorization header missing or invalid"), w)
  else
    match env.Parse tokenHeader with
    | .error _ => (.response StatusUnauthorized (.message "Invalid JWT token"), w)
    | .ok token =>
      match token.Claims, token.Valid with
      | some claims, true =>
        match claims "user_id" with
        | .float64 f =>
          let userID := T.toUint f
          match invoke (.GetTrainerByUserID userID) (env.GetTrainerByUserID userID) w with
          | (.error err, w1) => (.error err, w1)
          | (.ok trainerModel, w1) =>
            match ctx.BodyParserTrainingProgram with
            | .error _ => (.response StatusBadRequest (.message "Invalid request payload"), w1)
            | .ok parsed =>
              let program : dto.TrainingProgram T := { parsed with TrainerID := trainerModel.ID }
              match env.ValidateUser (.trainingProgram program) with
              | some err => (.response StatusBadRequest (.messageErr err), w1)
              | none =>
                match invoke (.CreateTrainingProgram program)
                    (env.CreateTrainingProgram program) w1 with
                | (.error err, w2) => (.error err, w2)
                | (.ok p, w2) =>
                  let res : dto.Response :=
                    { Message := "Training program created"
                      Success := true
                      ID := p.ID }
                  (.response StatusOK (.response res), w2)
        | _ => (.panic, w)
      | _, _ => (.response StatusUnauthorized (.message "Invalid JWT token"), w)

/-- Handler `AddSportActivity`, lines 360-396.  The claims are discarded (`_, ok := ...`). -/
def AddSportActivity (env : Env T σ) (ctx : Ctx T) (w : World T σ) : Result T σ :=
  let tokenHeader := ctx.Get "Authorization"
  if tokenHeader = "" then
    (.response StatusBadRequest (.message "Authorization header missing or invalid"), w)
  else
    match env.Parse tokenHeader with
    | .error _ => (.response StatusUnauthorized (.message "Invalid JWT token"), w)
    | .ok token =>
      match token.Claims, token.Valid with
      | some _, true =>
        match ctx.BodyParserAddSportActivity with
        | .error _ => (.response StatusBadRequest (.message "Invalid request payload"), w)
        | .ok activity =>
          match env.ValidateUser (.addSportActivity activity) with
          | some err => (.response StatusBadRequest (.messageErr err), w)
          | none =>
            match invoke (.AddSportActivity activity) (env.AddSportActivity activity) w with
            | (.error err, w1) => (.error err, w1)
            | (.ok s, w1) =>
              let res : dto.Response :=
                { Message := "Sport Activity Added successfully"
                  Success := true
                  ID := s.ID }
              (.response StatusOK (.response res), w1)
      | _, _ => (.response StatusUnauthorized (.message "Invalid JWT token"), w)

/-- Handler `GetALLTrainers`, lines 409-441.  It reads neither a header nor a token. -/
def GetALLTrainers (env : Env T σ) (_ctx : Ctx T) (w : World T σ) : Result T σ :=
  match invoke .GetALLTrainers env.GetALLTrainers w with
  | (.error err, w1) => (.error err, w1)
  | (.ok trainers, w1) =>
    -- the loop appends one DTO per trainer, in order
    let ts : List (dto.TrainerResponse T) :=
      trainers.map fun t =>
        let profileCard : dto.TrainerProfileCard T :=
          { FirstName := t.User.FirstName
            LastName := t.User.LastName
            UserName := T.zeroAttr
            Email := t.User.Email
            Status := t.Status
            CoachExperience := t.CoachExperience
            Contact := t.Contact
            Language := t.Language
            Country := t.Country }
        { TrainerProfileCard := profileCard
          ID := t.User.ID
          FirstName := t.User.FirstName
          LastName := t.User.LastName
          Sports := t.Sport
          Achievements := t.Achievements
          Education := t.Education }
    (.response StatusOK (.trainers ts), w1)

/-- Handler `AddReport`, lines 455-486.  The report is not passed to `utils.ValidateUser`. -/
def AddReport (env : Env T σ) (ctx : Ctx T) (w : World T σ) : Result T σ :=
  let tokenHeader := ctx.Get "Authorization"
  if tokenHeader = "" then
    (.response StatusBadRequest (.message "Authorization header missing or invalid"), w)
  else
    match env.Parse tokenHeader with
    | .error _ => (.response StatusUnauthorized (.message "Invalid JWT token"), w)
    | .ok token =>
      match token.Claims, token.Valid with
      | some claims, true =>
        match claims "user_id" with
        | .float64 f =>
          let userID := T.toUint f
          match ctx.BodyParserReport with
          | .error _ => (.response StatusBadRequest (.message "Invalid request payload"), w)
          | .ok parsed =>
            let report : dto.Report T := { parsed with UserID := userID }
            match invoke (.AddReport report) (env.AddReport report) w with
            | (.error err, w1) => (.error err, w1)
            | (.ok reportRes, w1) =>
              let res : dto.ReportResponse T := { Description := reportRes.Description }
              (.response StatusOK (.reportResponse res), w1)
        | _ => (.panic, w)
      | _, _ => (.response StatusUnauthorized (.message "Invalid JWT token"), w)

/-- Handler `GetWeekPlanTrainer`, lines 499-531. -/
def GetWeekPlanTrainer (env : Env T σ) (ctx : Ctx T) (w : World T σ) : Result T σ :=
  let tokenHeader := ctx.Get "Authorization"
  if tokenHeader = "" then
    (.response StatusBadRequest (.message "Authorization header missing or invalid"), w)
  else
    match env.Parse tokenHeader with
    | .error _ => (.response StatusUnauthorized (.message "Invalid JWT token"), w)
    | .ok token =>
      match token.Claims, token.Valid with
      | some claims, true =>
        match claims "user_id" with
        | .float64 f =>
          let userID := T.toUint f
          match invoke (.GetTrainerByUserID userID) (env.GetTrainerByUserID userID) w with
          | (.error err, w1) => (.error err, w1)
          | (.ok trainer, w1) =>
            let res : dto.WeekPlan T :=
              { Monday := trainer.ActiveDays.Monday
                Tuesday := trainer.ActiveDays.Tuesday
                Wednesday := trainer.ActiveDays.Wednesday
                Thursday := trainer.ActiveDays.Thursday
                Friday := trainer.ActiveDays.Friday
                Saturday := trainer.ActiveDays.Saturday
                Sunday := trainer.ActiveDays.Sunday }
            (.response StatusOK (.weekPlan res), w1)
        | _ => (.panic, w)
      | _, _ => (.response StatusUnauthorized (.message "Invalid JWT token"), w)

/-! ## Routes -/

/-- HTTP methods under which `RegisterRoutes` registers a route: those of the calls it makes,
and `HEAD`, which the router adds on every `Get`. -/
inductive Method where
  | GET | HEAD | PUT | POST
  deriving DecidableEq, Repr

/-- The ten handler methods of `TrainerController`. -/
inductive Handler where
  | EditProfile | GetTrainerProfile | GetTrainees | GetAllRequests | SetPrice
  | CreateTrainingProgram | AddSportActivity | GetALLTrainers | AddReport | GetWeekPlanTrainer
  deriving DecidableEq, Repr

/-- The handler method a name stands for. -/
def Handler.run : Handler → Env T σ → Ctx T → World T σ → Result T σ
  | .EditProfile => TrainerController.EditProfile
  | .GetTrainerProfile => TrainerController.GetTrainerProfile
  | .GetTrainees => TrainerController.GetTrainees
  | .GetAllRequests => TrainerController.GetAllRequests
  | .SetPrice => TrainerController.SetPrice
  | .CreateTrainingProgram => TrainerController.CreateTrainingProgram
  | .AddSportActivity => TrainerController.AddSportActivity
  | .GetALLTrainers => TrainerController.GetALLTrainers
  | .AddReport => TrainerController.AddReport
  | .GetWeekPlanTrainer => TrainerController.GetWeekPlanTrainer

/-- One registration on a `fiber.Router`. -/
structure Route where
  method : Method
  path : String
  handler : Handler
  deriving DecidableEq, Repr

/-- A `fiber.Router` group (fiber v2), as the routes registered on it, in order; a path is kept
as it was given, relative to the mount of the group. -/
abbrev Router := List Route

/-- Registration `group.Add(method, path, handler)`: one route. -/
def Router.Add (group : Router) (method : Method) (path : String) (handler : Handler) :
    Router :=
  group ++ [⟨method, path, handler⟩]

/-- Registration `group.Get(path, handler)`.  In fiber v2 it is `Add(MethodHead, ...)` followed
by `Add(MethodGet, ...)`: the path is registered for `HEAD` as well as for `GET`. -/
def Router.Get (group : Router) (path : String) (handler : Handler) : Router :=
  (group.Add .HEAD path handler).Add .GET path handler

/-- Registration `group.Put(path, handler)`, that is `Add(MethodPut, ...)`. -/
def Router.Put (group : Router) (path : String) (handler : Handler) : Router :=
  group.Add .PUT path handler

/-- Registration `group.Post(path, handler)`, that is `Add(MethodPost, ...)`. -/
def Router.Post (group : Router) (path : String) (handler : Handler) : Router :=
  group.Add .POST path handler

/-- Function `RegisterRoutes`, lines 16-27: ten registration calls, in source order. -/
def RegisterRoutes (group : Router) : Router :=
  let group := group.Get "/profile/" .GetTrainerProfile
  let group := group.Put "/profile/" .EditProfile
  let group := group.Get "/trainees/" .GetTrainees
  let group := group.Get "/requests/" .GetAllRequests
  let group := group.Put "/request/set-price" .SetPrice
  let group := group.Post "/program" .CreateTrainingProgram
  let group := group.Put "/program/sport-activity" .AddSportActivity
  let group := group.Get "/trainers" .GetALLTrainers
  let group := group.Post "/add-report" .AddReport
  group.Get "/" .GetWeekPlanTrainer

/-! ## Words of the specification -/

/-- The request carries a non-empty `Authorization` header whose token is accepted:
`jwt.Parse` returns no error, the claims are the map claims `claims` and the token is valid. -/
def Authenticated (env : Env T σ) (ctx : Ctx T) (claims : MapClaims T) : Prop :=
  ctx.Get "Authorization" ≠ "" ∧ env.Parse (ctx.Get "Authorization") = .ok ⟨some claims, true⟩

/-- The token fails verification: `jwt.Parse` returns an error, or the parsed token is not valid,
or its claims are not map claims. -/
def Rejected (env : Env T σ) (tokenHeader : String) : Prop :=
  (∃ e, env.Parse tokenHeader = .error e) ∨
    ∃ token, env.Parse tokenHeader = .ok token ∧ (token.Valid = false ∨ token.Claims = none)

/-- The call `ctx.BodyParser` of the handler fails (false for a handler that reads no body). -/
def BodyParserFails : Handler → Ctx T → Prop
  | .EditProfile, ctx => ∃ e, ctx.BodyParserUserEdit = .error e
  | .SetPrice, ctx => ∃ e, ctx.BodyParserTrainerSetPrice = .error e
  | .CreateTrainingProgram, ctx => ∃ e, ctx.BodyParserTrainingProgram = .error e
  | .AddSportActivity, ctx => ∃ e, ctx.BodyParserAddSportActivity = .error e
  | .AddReport, ctx => ∃ e, ctx.BodyParserReport = .error e
  | _, _ => False

/-- The response `400 {"message": "Invalid request payload"}`. -/
def invalidPayload : Outcome T := .response StatusBadRequest (.message "Invalid request payload")

/-! ## A concrete instance -/

/-- Instance of the external types: errors are messages, numbers are integers. -/
@[reducible] def sampleTypes : Types where
  Err := String
  Float64 := Int
  toUint := Int.toNat
  Attr := String
  zeroAttr := ""
  Sports := List String
  Achievements := List String
  Education := List String
  Day := Bool
  UserEdit := String
  EditedTrainer := String
  SetPriceFields := Nat
  ProgramFields := String
  Activity := String
  ReportFields := String

/-- A user record of the sample store. -/
def sampleUser (id : Nat) (first last : String) : User sampleTypes :=
  { ID := id, FirstName := first, LastName := last, Email := first ++ "@example.org" }

/-- The trainer of user 7 in the sample store: trainer 3, with trainees 11 and 12. -/
def sampleTrainer : Trainer sampleTypes :=
  { ID := 3
    UserName := "coach"
    User := sampleUser 7 "Cora" "Coach"
    Status := "active"
    CoachExperience := "5y"
    Contact := "n/a"
    Language := "en"
    Country := "NL"
    Sport := ["rowing"]
    Achievements := []
    Education := []
    TraineeIDs := [11, 12]
    ActiveDays :=
      { Monday := true, Tuesday := false, Wednesday := true, Thursday := false
        Friday := true, Saturday := false, Sunday := false } }

/-- Claims of a token whose `user_id` is the number `n`. -/
def claimsOfUser (n : Int) : MapClaims sampleTypes :=
  fun key => if key = "user_id" then .float64 n else .null

/-- Claims of a token without a `user_id`. -/
def claimsEmpty : MapClaims sampleTypes := fun _ => .null

/-- Claims of a token whose `user_id` is a string. -/
def claimsStringUser : MapClaims sampleTypes :=
  fun key => if key = "user_id" then .string "7" else .null

/-- A sample environment.  The store is the number of writes made.  Tokens: `t7` and `t8` are
accepted with `user_id` 7 and 8, `t0` is accepted and has no `user_id`, `ts` is accepted with the
string `"7"` as `user_id`; every other token is refused.  Only user 7 is a trainer. -/
def sampleEnv : Env sampleTypes Nat where
  Parse := fun tokenHeader =>
    if tokenHeader = "t7" then .ok ⟨some (claimsOfUser 7), true⟩
    else if tokenHeader = "t8" then .ok ⟨some (claimsOfUser 8), true⟩
    else if tokenHeader = "t0" then .ok ⟨some claimsEmpty, true⟩
    else if tokenHeader = "ts" then .ok ⟨some claimsStringUser, true⟩
    else .error "signature is invalid"
  ValidateUser := fun p =>
    match p with
    | .userEdit p => if p = "" then some "profile is required" else none
    | .trainerSetPrice p => if p.fields = 0 then some "price is required" else none
    | .trainingProgram p => if p.fields = "" then some "title is required" else none
    | .addSportActivity p => if p = "" then some "activity is required" else none
    | .report p => if p.fields = "" then some "description is required" else none
  GetTrainerByUserID := fun userID s =>
    if userID = 7 then (.ok sampleTrainer, s) else (.error "record not found", s)
  GetTraineeById := fun id s =>
    if id = 11 then (.ok ⟨sampleUser 11 "Ann" "Lee"⟩, s)
    else if id = 12 then (.ok ⟨sampleUser 12 "Bob" "Ray"⟩, s)
    else (.error "record not found", s)
  GetRequests := fun _ s => (.ok [⟨"Ann Lee", "2024-01-01", "10", "pending"⟩], s)
  EditTrainerProfile := fun _ p s => (.ok p, s + 1)
  SetPrice := fun _ s => (.ok ⟨1, 11, "10", "", "priced"⟩, s + 1)
  CreateTrainingProgram := fun _ s => (.ok ⟨s + 1⟩, s + 1)
  AddSportActivity := fun _ s => (.ok ⟨s + 1⟩, s + 1)
  GetALLTrainers := fun s => (.ok [sampleTrainer], s)
  AddReport := fun p s => (.ok ⟨p.fields⟩, s + 1)

/-- A request with the given `Authorization` header (no other header) and a body that parses
to none of the payload types. -/
def sampleCtx (authorization : String) : Ctx sampleTypes where
  Get := fun key => if key = "Authorization" then authorization else ""
  BodyParserUserEdit := .error "unexpected end of JSON input"
  BodyParserTrainerSetPrice := .error "unexpected end of JSON input"
  BodyParserTrainingProgram := .error "unexpected end of JSON input"
  BodyParserAddSportActivity := .error "unexpected end of JSON input"
  BodyParserReport := .error "unexpected end of JSON input"

/-- The empty store with an empty trace. -/
def sampleWorld : World sampleTypes Nat := ⟨0, []⟩

/-- A request whose body parses to the price payload `p`. -/
def sampleCtxSetPrice (authorization : String) (p : dto.TrainerSetPrice sampleTypes) :
    Ctx sampleTypes :=
  { sampleCtx authorization with BodyParserTrainerSetPrice := .ok p }

/-- A request whose body parses to the activity `p`. -/
def sampleCtxActivity (authorization : String) (p : String) : Ctx sampleTypes :=
  { sampleCtx authorization with BodyParserAddSportActivity := .ok p }

/-- A request whose body parses to the report `p`. -/
def sampleCtxReport (authorization : String) (p : dto.Report sampleTypes) : Ctx sampleTypes :=
  { sampleCtx authorization with BodyParserReport := .ok p }

/-! ## Definitions used in the statements -/

/-- The ten rows of the route table of the specification, with the handler that produces the
response each row names. -/
def routeTable : List Route :=
  [ ⟨.GET, "/profile/", .GetTrainerProfile⟩,
    ⟨.PUT, "/profile/", .EditProfile⟩,
    ⟨.GET, "/trainees/", .GetTrainees⟩,
    ⟨.GET, "/requests/", .GetAllRequests⟩,
    ⟨.PUT, "/request/set-price", .SetPrice⟩,
    ⟨.POST, "/program", .CreateTrainingProgram⟩,
    ⟨.PUT, "/program/sport-activity", .AddSportActivity⟩,
    ⟨.GET, "/trainers", .GetALLTrainers⟩,
    ⟨.POST, "/add-report", .AddReport⟩,
    ⟨.GET, "/", .GetWeekPlanTrainer⟩ ]

/-- The (method, path) pairs of a list of routes. -/
def pairs (routes : List Route) : List (Method × String) :=
  routes.map fun r => (r.method, r.path)

/-- The `HEAD` routes that go with the `GET` rows of a list of routes: same path, same handler. -/
def headRoutes (routes : List Route) : List Route :=
  (routes.filter fun r => decide (r.method = .GET)).map fun r => ⟨.HEAD, r.path, r.handler⟩

/-- Every call of the trace that returned an error `e` is the last call of the trace, and the
handler ended by returning exactly `e` (so not in a response: no status, no body). -/
def ErrorsFinal (o : Outcome T) (tr : List (Event T)) : Prop :=
  ∀ pre c e post, tr = pre ++ ⟨c, some e⟩ :: post → post = [] ∧ o = .error e

/-- The same property, by recursion on the trace. -/
def ErrorsFinalRec (o : Outcome T) : List (Event T) → Prop
  | [] => True
  | ⟨_, none⟩ :: rest => ErrorsFinalRec o rest
  | [⟨_, some e⟩] => o = .error e
  | ⟨_, some _⟩ :: _ :: _ => False

/-- `Lookups env ids s ts s2`: from the store `s`, the calls `GetTraineeById` for `ids`, made in
order, all succeed; they return the trainees `ts` and leave the store `s2`. -/
inductive Lookups (env : Env T σ) : List Int → σ → List (Trainee T) → σ → Prop where
  | nil (s : σ) : Lookups env [] s [] s
  | cons {id : Int} {ids : List Int} {s s1 s2 : σ} {t : Trainee T} {ts : List (Trainee T)} :
      env.GetTraineeById (uint id) s = (.ok t, s1) → Lookups env ids s1 ts s2 →
      Lookups env (id :: ids) s (t :: ts) s2

/-- The trace entry of a lookup of the trainee `id` that succeeded. -/
def lookedUp (id : Int) : Event T := ⟨.GetTraineeById (uint id), none⟩

/-- The entry of the response for a trainee: first name, one space, last name. -/
def traineeEntry (t : Trainee T) : dto.TraineeInTrainerPage :=
  ⟨t.User.FirstName ++ " " ++ t.User.LastName⟩

/-- The first service call the handler made is `c`. -/
def FirstCallIs (w : World T σ) (r : Result T σ) (c : Call T) : Prop :=
  ∃ err rest, r.2.trace = w.trace ++ ⟨c, err⟩ :: rest

/-! # Theorems -/

/-! ## Missing header, refused token -/

/-- The nine handlers that read the header answer 400 when it is empty, and call nothing. -/
theorem missing_header_rejected (h : Handler) (hne : h ≠ .GetALLTrainers) (env : Env T σ)
    (ctx : Ctx T) (w : World T σ) (hdr : ctx.Get "Authorization" = "") :
    h.run env ctx w =
      (.response StatusBadRequest (.message "Authorization header missing or invalid"), w) := by
  cases h <;>
    simp [Handler.run, EditProfile, GetTrainerProfile, GetTrainees, GetAllRequests, SetPrice,
      CreateTrainingProgram, AddSportActivity, AddReport, GetWeekPlanTrainer, hdr] at hne ⊢

/-- The nine handlers that verify the token answer 401 when it is refused, and call nothing. -/
theorem refused_token_rejected (h : Handler) (hne : h ≠ .GetALLTrainers) (env : Env T σ)
    (ctx : Ctx T) (w : World T σ) (hdr : ctx.Get "Authorization" ≠ "")
    (hrej : Rejected env (ctx.Get "Authorization")) :
    h.run env ctx w = (.response StatusUnauthorized (.message "Invalid JWT token"), w) := by
  rcases hrej with ⟨e, he⟩ | ⟨token, ht, hv⟩
  · cases h <;>
      simp [Handler.run, EditProfile, GetTrainerProfile, GetTrainees, GetAllRequests, SetPrice,
        CreateTrainingProgram, AddSportActivity, AddReport, GetWeekPlanTrainer, hdr, he] at hne ⊢
  · obtain ⟨cl, v⟩ := token
    have hcase : cl = none ∨ v = false := by
      rcases hv with hv | hv
      · exact Or.inr hv
      · exact Or.inl hv
    rcases hcase with rfl | rfl
    · cases h <;>
        simp [Handler.run, EditProfile, GetTrainerProfile, GetTrainees, GetAllRequests, SetPrice,
          CreateTrainingProgram, AddSportActivity, AddReport, GetWeekPlanTrainer, hdr, ht]
          at hne ⊢
    · cases cl <;> cases h <;>
        simp [Handler.run, EditProfile, GetTrainerProfile, GetTrainees, GetAllRequests, SetPrice,
          CreateTrainingProgram, AddSportActivity, AddReport, GetWeekPlanTrainer, hdr, ht]
          at hne ⊢

/-- In the eight handlers that read the user id, an accepted token whose `user_id` claim is not
a `float64` makes the type assertion fail: the handler panics, having called nothing. -/
theorem user_id_not_number_panics (h : Handler) (hne : h ≠ .GetALLTrainers)
    (hne2 : h ≠ .AddSportActivity) (env : Env T σ) (ctx : Ctx T) (w : World T σ)
    (claims : MapClaims T) (hauth : Authenticated env ctx claims)
    (hnum : ∀ f, claims "user_id" ≠ .float64 f) :
    h.run env ctx w = (.panic, w) := by
  obtain ⟨hdr, hp⟩ := hauth
  cases hc : claims "user_id" with
  | float64 f => exact absurd hc (hnum f)
  | _ =>
    cases h <;>
      simp [Handler.run, EditProfile, GetTrainerProfile, GetTrainees, GetAllRequests, SetPrice,
        CreateTrainingProgram, AddReport, GetWeekPlanTrainer, hdr, hp, hc] at hne hne2 ⊢

/-- The handler `GetALLTrainers` does not depend on the request: any two requests are served
alike, whatever their headers. -/
theorem GetALLTrainers_reads_no_request (env : Env T σ) (ctx₁ ctx₂ : Ctx T) (w : World T σ) :
    GetALLTrainers env ctx₁ w = GetALLTrainers env ctx₂ w := rfl

/-- The handler `AddSportActivity` does not depend on the claims of an accepted token: two
authenticated requests with the same body are served alike. -/
theorem AddSportActivity_reads_no_claim (env : Env T σ) (ctx₁ ctx₂ : Ctx T) (w : World T σ)
    (claims₁ claims₂ : MapClaims T) (h₁ : Authenticated env ctx₁ claims₁)
    (h₂ : Authenticated env ctx₂ claims₂)
    (hbody : ctx₁.BodyParserAddSportActivity = ctx₂.BodyParserAddSportActivity) :
    AddSportActivity env ctx₁ w = AddSportActivity env ctx₂ w := by
  simp [AddSportActivity, h₁.1, h₁.2, h₂.1, h₂.2, hbody]

/-! ## C1, C2, C10: evaluations at the failing inputs -/

/-- C1: `GetALLTrainers` on a request without an `Authorization` header does not answer 400:
it calls the service function `GetALLTrainers` and answers 200 with the list of trainers. -/
theorem GetALLTrainers_without_header :
    (sampleCtx "").Get "Authorization" = "" ∧
    (GetALLTrainers sampleEnv (sampleCtx "") sampleWorld).2.trace = [⟨.GetALLTrainers, none⟩] ∧
    (∃ ts, ts.length = 1 ∧
      (GetALLTrainers sampleEnv (sampleCtx "") sampleWorld).1 =
        .response StatusOK (.trainers ts)) ∧
    (GetALLTrainers sampleEnv (sampleCtx "") sampleWorld).1 ≠
      .response StatusBadRequest (.message "Authorization header missing or invalid") := by
  refine ⟨by simp [sampleCtx], ?_, ?_, ?_⟩ <;>
    simp [GetALLTrainers, invoke, sampleEnv, sampleWorld, StatusOK, StatusBadRequest]

/-- C2: `GetALLTrainers` on a request whose token is refused by `jwt.Parse` does not answer
401: it calls the service function `GetALLTrainers` and answers 200 with the list of trainers. -/
theorem GetALLTrainers_with_refused_token :
    (sampleCtx "forged").Get "Authorization" ≠ "" ∧
    Rejected sampleEnv ((sampleCtx "forged").Get "Authorization") ∧
    (GetALLTrainers sampleEnv (sampleCtx "forged") sampleWorld).2.trace =
      [⟨.GetALLTrainers, none⟩] ∧
    (∃ ts, ts.length = 1 ∧
      (GetALLTrainers sampleEnv (sampleCtx "forged") sampleWorld).1 =
        .response StatusOK (.trainers ts)) ∧
    (GetALLTrainers sampleEnv (sampleCtx "forged") sampleWorld).1 ≠
      .response StatusUnauthorized (.message "Invalid JWT token") := by
  refine ⟨by simp [sampleCtx], Or.inl ⟨"signature is invalid", by simp [sampleCtx, sampleEnv]⟩,
    ?_, ?_, ?_⟩ <;>
    simp [GetALLTrainers, invoke, sampleEnv, sampleWorld, StatusOK, StatusUnauthorized]

/-- C10: with an accepted token that has no `user_id` claim (`t0`), or whose `user_id` is a
string (`ts`), each of the eight handlers that read the user id ends in a runtime panic. -/
theorem user_id_assertion_panics :
    Authenticated sampleEnv (sampleCtx "t0") claimsEmpty ∧
    Authenticated sampleEnv (sampleCtx "ts") claimsStringUser ∧
    ∀ h ∈ [Handler.EditProfile, .GetTrainerProfile, .GetTrainees, .GetAllRequests, .SetPrice,
        .CreateTrainingProgram, .AddReport, .GetWeekPlanTrainer],
      h.run sampleEnv (sampleCtx "t0") sampleWorld = (.panic, sampleWorld) ∧
      h.run sampleEnv (sampleCtx "ts") sampleWorld = (.panic, sampleWorld) := by
  have h0 : Authenticated sampleEnv (sampleCtx "t0") claimsEmpty := by
    simp [Authenticated, sampleCtx, sampleEnv]
  have hs : Authenticated sampleEnv (sampleCtx "ts") claimsStringUser := by
    simp [Authenticated, sampleCtx, sampleEnv]
  refine ⟨h0, hs, ?_⟩
  intro h hmem
  have hne : h ≠ .GetALLTrainers := by
    rintro rfl
    simp at hmem
  have hne2 : h ≠ .AddSportActivity := by
    rintro rfl
    simp at hmem
  exact ⟨user_id_not_number_panics h hne hne2 sampleEnv _ _ claimsEmpty h0
      (by intro f; simp [claimsEmpty]),
    user_id_not_number_panics h hne hne2 sampleEnv _ _ claimsStringUser hs
      (by intro f; simp [claimsStringUser])⟩

/-! ## C7: the route table -/

/-- C7, counterexample: on an empty group `RegisterRoutes` leaves fifteen pairwise distinct
(method, path) pairs, not ten: `HEAD /profile/`, which is no row of the route table, is one of
them, bound to `GetTrainerProfile`. -/
theorem RegisterRoutes_registers_head :
    (pairs (RegisterRoutes [])).length = 15 ∧
    (pairs (RegisterRoutes [])).Nodup ∧
    (⟨.HEAD, "/profile/", .GetTrainerProfile⟩ : Route) ∈ RegisterRoutes [] ∧
    (Method.HEAD, "/profile/") ∉ pairs routeTable ∧
    RegisterRoutes [] ≠ routeTable := by
  refine ⟨?_, ?_, ?_, ?_, ?_⟩ <;>
    simp [RegisterRoutes, Router.Get, Router.Put, Router.Post, Router.Add, routeTable, pairs]

/-- C7, amended: on any router group, `RegisterRoutes` only adds routes, after what the group
already held.  The routes it adds under `GET`, `PUT` and `POST` are exactly the ten rows of the
route table, in order, each bound to the handler of its row; the other routes it adds are the
`HEAD` routes of the five `GET` rows, same path and same handler, which `Get` registers with
them.  That makes fifteen (method, path) pairs, pairwise distinct: none is registered twice. -/
theorem RegisterRoutes_table (group : Router) :
    RegisterRoutes group = group ++ RegisterRoutes [] ∧
    ((RegisterRoutes []).filter fun r => decide (r.method ≠ .HEAD)) = routeTable ∧
    ((RegisterRoutes []).filter fun r => decide (r.method = .HEAD)) = headRoutes routeTable ∧
    (headRoutes routeTable).length = 5 ∧
    routeTable.length = 10 ∧
    (pairs routeTable).Nodup ∧
    (pairs (RegisterRoutes [])).length = 15 ∧
    (pairs (RegisterRoutes [])).Nodup := by
  refine ⟨?_, ?_, ?_, ?_, ?_, ?_, ?_, ?_⟩ <;>
    simp [RegisterRoutes, Router.Get, Router.Put, Router.Post, Router.Add, routeTable, pairs,
      headRoutes]

/-! ## C3: a body that does not parse -/

/-- C3, counterexample: `SetPrice` with an accepted token of a user who is no trainer (`t8`)
and a body that does not parse returns the error of the trainer lookup, not a 400 response. -/
theorem SetPrice_lookup_error_before_body :
    Authenticated sampleEnv (sampleCtx "t8") (claimsOfUser 8) ∧
    BodyParserFails .SetPrice (sampleCtx "t8") ∧
    Handler.run .SetPrice sampleEnv (sampleCtx "t8") sampleWorld =
      (.error "record not found", ⟨0, [⟨.GetTrainerByUserID 8, some "record not found"⟩]⟩) ∧
    (Handler.run .SetPrice sampleEnv (sampleCtx "t8") sampleWorld).1 ≠ invalidPayload := by
  refine ⟨by simp [Authenticated, sampleCtx, sampleEnv], ⟨_, rfl⟩, ?_, ?_⟩ <;>
    simp [Handler.run, SetPrice, invoke, sampleCtx, sampleEnv, sampleWorld, claimsOfUser,
      invalidPayload]

/-- C3, amended: for the five body-taking handlers, when the token is accepted and the body does
not parse, `AddSportActivity` answers `400 "Invalid request payload"` and calls nothing; when
moreover the `user_id` claim is a number, `EditProfile` and `AddReport` do the same, while
`SetPrice` and `CreateTrainingProgram` first look the trainer up: they give that answer when the
lookup succeeds and return the lookup error when it fails. -/
theorem invalid_body_rejected (h : Handler) (env : Env T σ) (ctx : Ctx T) (w : World T σ)
    (claims : MapClaims T) (hauth : Authenticated env ctx claims)
    (hbody : BodyParserFails h ctx) :
    (h = .AddSportActivity → h.run env ctx w = (invalidPayload, w)) ∧
    ∀ f, claims "user_id" = .float64 f →
      (h = .EditProfile ∨ h = .AddReport → h.run env ctx w = (invalidPayload, w)) ∧
      (h = .SetPrice ∨ h = .CreateTrainingProgram →
        (∀ trainerModel s,
          env.GetTrainerByUserID (T.toUint f) w.state = (.ok trainerModel, s) →
          h.run env ctx w =
            (invalidPayload, ⟨s, w.trace ++ [⟨.GetTrainerByUserID (T.toUint f), none⟩]⟩)) ∧
        (∀ e s,
          env.GetTrainerByUserID (T.toUint f) w.state = (.error e, s) →
          h.run env ctx w =
            (.error e, ⟨s, w.trace ++ [⟨.GetTrainerByUserID (T.toUint f), some e⟩]⟩))) := by
  obtain ⟨hdr, hp⟩ := hauth
  refine ⟨?_, fun f hf => ⟨?_, ?_⟩⟩
  · rintro rfl
    obtain ⟨e, he⟩ := hbody
    simp [Handler.run, AddSportActivity, hdr, hp, he, invalidPayload]
  · rintro (rfl | rfl) <;> obtain ⟨e, he⟩ := hbody <;>
      simp [Handler.run, EditProfile, AddReport, hdr, hp, hf, he, invalidPayload]
  · rintro (rfl | rfl) <;> obtain ⟨e, he⟩ := hbody <;>
      refine ⟨fun tm s hl => ?_, fun e s hl => ?_⟩ <;>
      simp [Handler.run, SetPrice, CreateTrainingProgram, invoke, hdr, hp, hf, he, hl,
        invalidPayload]

/-- Witness of `invalid_body_rejected`: `SetPrice` with the token of trainer 7 and a body that
does not parse. -/
theorem invalid_body_rejected_witness :
    Authenticated sampleEnv (sampleCtx "t7") (claimsOfUser 7) ∧
    BodyParserFails .SetPrice (sampleCtx "t7") ∧
    Handler.run .SetPrice sampleEnv (sampleCtx "t7") sampleWorld =
      (invalidPayload, ⟨0, sampleWorld.trace ++ [⟨.GetTrainerByUserID 7, none⟩]⟩) :=
  have hauth : Authenticated sampleEnv (sampleCtx "t7") (claimsOfUser 7) := by
    simp [Authenticated, sampleCtx, sampleEnv]
  have hbody : BodyParserFails .SetPrice (sampleCtx "t7") := ⟨_, rfl⟩
  ⟨hauth, hbody,
    (((invalid_body_rejected .SetPrice sampleEnv (sampleCtx "t7") sampleWorld (claimsOfUser 7)
      hauth hbody).2 7 (by simp [claimsOfUser])).2 (Or.inl rfl)).1 sampleTrainer 0
      (by simp [sampleEnv, sampleWorld])⟩

/-! ## C4: a payload that fails validation -/

/-- C4, counterexample: `SetPrice` with an accepted token of a user who is no trainer (`t8`)
and a body that parses to a payload failing validation returns the error of the trainer lookup,
not a 400 response. -/
theorem SetPrice_lookup_error_before_validation :
    Authenticated sampleEnv (sampleCtxSetPrice "t8" ⟨99, 0⟩) (claimsOfUser 8) ∧
    (sampleCtxSetPrice "t8" ⟨99, 0⟩).BodyParserTrainerSetPrice = .ok ⟨99, 0⟩ ∧
    (∀ id, sampleEnv.ValidateUser (.trainerSetPrice ⟨id, 0⟩) = some "price is required") ∧
    SetPrice sampleEnv (sampleCtxSetPrice "t8" ⟨99, 0⟩) sampleWorld =
      (.error "record not found", ⟨0, [⟨.GetTrainerByUserID 8, some "record not found"⟩]⟩) ∧
    ∀ body, (SetPrice sampleEnv (sampleCtxSetPrice "t8" ⟨99, 0⟩) sampleWorld).1 ≠
      .response StatusBadRequest body := by
  refine ⟨by simp [Authenticated, sampleCtxSetPrice, sampleCtx, sampleEnv], rfl,
    by simp [sampleEnv], ?_, ?_⟩ <;>
    simp [SetPrice, invoke, sampleCtxSetPrice, sampleCtx, sampleEnv, sampleWorld, claimsOfUser]

/-- C4, amended: when the token is accepted, the body parses and `utils.ValidateUser` returns
`err` for the payload, `AddSportActivity` answers `400 {"message": err}` and calls nothing; when
moreover the `user_id` claim is a number, `EditProfile` does the same; `SetPrice` and
`CreateTrainingProgram` validate the payload with the `TrainerID` of the trainer they looked up,
and after a successful lookup they give that answer having made no other call; when their lookup
fails they return its error, again having made no other call. -/
theorem invalid_payload_rejected (env : Env T σ) (ctx : Ctx T) (w : World T σ)
    (claims : MapClaims T) (hauth : Authenticated env ctx claims) :
    (∀ p err, ctx.BodyParserAddSportActivity = .ok p →
      env.ValidateUser (.addSportActivity p) = some err →
      AddSportActivity env ctx w = (.response StatusBadRequest (.messageErr err), w)) ∧
    ∀ f, claims "user_id" = .float64 f →
      (∀ p err, ctx.BodyParserUserEdit = .ok p →
        env.ValidateUser (.userEdit p) = some err →
        EditProfile env ctx w = (.response StatusBadRequest (.messageErr err), w)) ∧
      (∀ trainerModel s p err,
        env.GetTrainerByUserID (T.toUint f) w.state = (.ok trainerModel, s) →
        ctx.BodyParserTrainerSetPrice = .ok p →
        env.ValidateUser (.trainerSetPrice { p with TrainerID := trainerModel.ID }) = some err →
        SetPrice env ctx w =
          (.response StatusBadRequest (.messageErr err),
            ⟨s, w.trace ++ [⟨.GetTrainerByUserID (T.toUint f), none⟩]⟩)) ∧
      (∀ trainerModel s p err,
        env.GetTrainerByUserID (T.toUint f) w.state = (.ok trainerModel, s) →
        ctx.BodyParserTrainingProgram = .ok p →
        env.ValidateUser (.trainingProgram { p with TrainerID := trainerModel.ID }) = some err →
        CreateTrainingProgram env ctx w =
          (.response StatusBadRequest (.messageErr err),
            ⟨s, w.trace ++ [⟨.GetTrainerByUserID (T.toUint f), none⟩]⟩)) ∧
      (∀ e s, env.GetTrainerByUserID (T.toUint f) w.state = (.error e, s) →
        SetPrice env ctx w =
          (.error e, ⟨s, w.trace ++ [⟨.GetTrainerByUserID (T.toUint f), some e⟩]⟩) ∧
        CreateTrainingProgram env ctx w =
          (.error e, ⟨s, w.trace ++ [⟨.GetTrainerByUserID (T.toUint f), some e⟩]⟩)) := by
  obtain ⟨hdr, hp⟩ := hauth
  refine ⟨fun p err hb hv => ?_, fun f hf => ⟨fun p err hb hv => ?_,
    fun tm s p err hl hb hv => ?_, fun tm s p err hl hb hv => ?_, fun e s hl => ⟨?_, ?_⟩⟩⟩
  · simp [AddSportActivity, hdr, hp, hb, hv]
  · simp [EditProfile, hdr, hp, hf, hb, hv]
  · simp [SetPrice, invoke, hdr, hp, hf, hl, hb, hv]
  · simp [CreateTrainingProgram, invoke, hdr, hp, hf, hl, hb, hv]
  · simp [SetPrice, invoke, hdr, hp, hf, hl]
  · simp [CreateTrainingProgram, invoke, hdr, hp, hf, hl]

/-- Witness of `invalid_payload_rejected`: `SetPrice` with the token of trainer 7 and a price
payload without a price. -/
theorem invalid_payload_rejected_witness :
    Authenticated sampleEnv (sampleCtxSetPrice "t7" ⟨99, 0⟩) (claimsOfUser 7) ∧
    SetPrice sampleEnv (sampleCtxSetPrice "t7" ⟨99, 0⟩) sampleWorld =
      (.response StatusBadRequest (.messageErr "price is required"),
        ⟨0, sampleWorld.trace ++ [⟨.GetTrainerByUserID 7, none⟩]⟩) :=
  have hauth : Authenticated sampleEnv (sampleCtxSetPrice "t7" ⟨99, 0⟩) (claimsOfUser 7) := by
    simp [Authenticated, sampleCtxSetPrice, sampleCtx, sampleEnv]
  ⟨hauth,
    ((invalid_payload_rejected sampleEnv (sampleCtxSetPrice "t7" ⟨99, 0⟩) sampleWorld
      (claimsOfUser 7) hauth).2 7 (by simp [claimsOfUser])).2.1 sampleTrainer 0 ⟨99, 0⟩
      "price is required" (by simp [sampleEnv, sampleWorld]) rfl (by simp [sampleEnv])⟩

/-! ## C6: errors of the service layer -/

theorem ErrorsFinal_of_rec (o : Outcome T) (tr : List (Event T)) (h : ErrorsFinalRec o tr) :
    ErrorsFinal o tr := by
  induction tr with
  | nil =>
    intro pre c e post heq
    simp at heq
  | cons ev rest ih =>
    intro pre c e post heq
    obtain ⟨c0, err0⟩ := ev
    cases err0 with
    | none =>
      cases pre with
      | nil => simp at heq
      | cons x pre2 =>
        simp only [List.cons_append, List.cons.injEq] at heq
        exact ih (by simpa [ErrorsFinalRec] using h) pre2 c e post heq.2
    | some e0 =>
      cases rest with
      | nil =>
        cases pre with
        | nil =>
          simp only [List.nil_append, List.cons.injEq, Event.mk.injEq, Option.some.injEq] at heq
          obtain ⟨⟨-, he⟩, hpost⟩ := heq
          refine ⟨hpost.symm, ?_⟩
          subst he
          simpa [ErrorsFinalRec] using h
        | cons x pre2 => simp at heq
      | cons y rest2 => simp [ErrorsFinalRec] at h

theorem invoke_ok_iff {α : Type} (c : Call T) (f : σ → Except T.Err α × σ) (w w1 : World T σ)
    (a : α) :
    invoke c f w = (.ok a, w1) ↔
      (f w.state).1 = .ok a ∧ w1 = ⟨(f w.state).2, w.trace ++ [⟨c, none⟩]⟩ := by
  unfold invoke
  rcases h : f w.state with ⟨_ | _, s⟩ <;> simp [eq_comm]

theorem invoke_error_iff {α : Type} (c : Call T) (f : σ → Except T.Err α × σ)
    (w w1 : World T σ) (e : T.Err) :
    invoke c f w = (.error e, w1) ↔
      (f w.state).1 = .error e ∧ w1 = ⟨(f w.state).2, w.trace ++ [⟨c, some e⟩]⟩ := by
  unfold invoke
  rcases h : f w.state with ⟨_ | _, s⟩ <;> simp [eq_comm]
  rintro rfl
  exact Iff.rfl

/-- The loop of `GetTrainees` only appends to the trace, and what it appends has its errors
last. -/
theorem loop_errorsFinal (env : Env T σ) (ids : List Int) :
    ∀ (acc : List dto.TraineeInTrainerPage) (w : World T σ),
      ∃ rest, (GetTrainees.loop env ids acc w).2.trace = w.trace ++ rest ∧
        ErrorsFinalRec (GetTrainees.loop env ids acc w).1 rest := by
  induction ids with
  | nil =>
    intro acc w
    exact ⟨[], by simp [GetTrainees.loop], by simp [GetTrainees.loop, ErrorsFinalRec]⟩
  | cons id ids ih =>
    intro acc w
    rcases h : env.GetTraineeById (uint id) w.state with ⟨e | t, s1⟩
    · exact ⟨[⟨.GetTraineeById (uint id), some e⟩], by simp [GetTrainees.loop, invoke, h],
        by simp [GetTrainees.loop, invoke, h, ErrorsFinalRec]⟩
    · obtain ⟨rest, h1, h2⟩ :=
        ih (acc ++ [⟨t.User.FirstName ++ " " ++ t.User.LastName⟩])
          ⟨s1, w.trace ++ [⟨.GetTraineeById (uint id), none⟩]⟩
      refine ⟨⟨.GetTraineeById (uint id), none⟩ :: rest, ?_, ?_⟩
      · simpa [GetTrainees.loop, invoke, h] using h1
      · simpa [GetTrainees.loop, invoke, h, ErrorsFinalRec] using h2

theorem GetTrainees_errorsFinal (env : Env T σ) (ctx : Ctx T) (s : σ) :
    ErrorsFinalRec (GetTrainees env ctx ⟨s, []⟩).1 (GetTrainees env ctx ⟨s, []⟩).2.trace := by
  simp only [GetTrainees]
  repeat' split
  all_goals try (simp_all [ErrorsFinalRec, invoke_ok_iff, invoke_error_iff]; done)
  rename_i tm w1 hw
  obtain ⟨rest, h1, h2⟩ := loop_errorsFinal env tm.TraineeIDs [] w1
  rw [h1]
  rw [invoke_ok_iff] at hw
  obtain ⟨-, rfl⟩ := hw
  simpa [ErrorsFinalRec] using h2

/-- C6: in every handler, serving a request, a service call that returns an error `e` is the last
call made, and the handler ends by returning exactly `e`: it is not a response, so no status is
set and no body is written. -/
theorem service_errors_pass_through (h : Handler) (env : Env T σ) (ctx : Ctx T) (s : σ) :
    ErrorsFinal (h.run env ctx ⟨s, []⟩).1 (h.run env ctx ⟨s, []⟩).2.trace := by
  apply ErrorsFinal_of_rec
  by_cases hg : h = .GetTrainees
  · subst hg
    exact GetTrainees_errorsFinal env ctx s
  · cases h <;>
      simp only [Handler.run, EditProfile, GetTrainerProfile, GetAllRequests, SetPrice,
        CreateTrainingProgram, AddSportActivity, GetALLTrainers, AddReport, GetWeekPlanTrainer]
        <;> (try contradiction) <;>
      (repeat' split) <;> simp_all [ErrorsFinalRec, invoke_ok_iff, invoke_error_iff]

/-! ## C8: the list of trainees -/

theorem Lookups_length {env : Env T σ} {ids : List Int} {s s2 : σ} {ts : List (Trainee T)}
    (h : Lookups env ids s ts s2) : ts.length = ids.length := by
  induction h with
  | nil s => rfl
  | cons _ _ ih => simp [ih]

theorem loop_of_Lookups {env : Env T σ} {ids : List Int} {s s2 : σ} {ts : List (Trainee T)}
    (h : Lookups env ids s ts s2) (acc : List dto.TraineeInTrainerPage) (tr : List (Event T)) :
    GetTrainees.loop env ids acc ⟨s, tr⟩ =
      (.response StatusOK (.trainees (acc ++ ts.map traineeEntry)),
        ⟨s2, tr ++ ids.map lookedUp⟩) := by
  induction h generalizing acc tr with
  | nil s => simp [GetTrainees.loop]
  | cons h1 _ ih => simp [GetTrainees.loop, invoke, h1, ih, traineeEntry, lookedUp]

theorem loop_of_failure {env : Env T σ} {pre : List Int} {s s1 : σ} {ts : List (Trainee T)}
    (h : Lookups env pre s ts s1) (id : Int) (post : List Int) (e : T.Err) (s2 : σ)
    (hfail : env.GetTraineeById (uint id) s1 = (.error e, s2))
    (acc : List dto.TraineeInTrainerPage) (tr : List (Event T)) :
    GetTrainees.loop env (pre ++ id :: post) acc ⟨s, tr⟩ =
      (.error e, ⟨s2, tr ++ (pre.map lookedUp ++ [⟨.GetTraineeById (uint id), some e⟩])⟩) := by
  induction h generalizing acc tr with
  | nil s => simp [GetTrainees.loop, invoke, hfail]
  | cons h1 _ ih => simp [GetTrainees.loop, invoke, h1, ih hfail, lookedUp]

/-- From any store, either all lookups of `ids` succeed, or there is a first one that fails. -/
theorem Lookups_or_failure (env : Env T σ) (ids : List Int) :
    ∀ s, (∃ ts s2, Lookups env ids s ts s2) ∨
      ∃ pre id post ts s1 e s2, ids = pre ++ id :: post ∧ Lookups env pre s ts s1 ∧
        env.GetTraineeById (uint id) s1 = (.error e, s2) := by
  induction ids with
  | nil => exact fun s => Or.inl ⟨[], s, .nil s⟩
  | cons id ids ih =>
    intro s
    rcases h : env.GetTraineeById (uint id) s with ⟨e | t, s1⟩
    · exact Or.inr ⟨[], id, ids, [], s, e, s1, rfl, .nil s, h⟩
    · rcases ih s1 with ⟨ts, s2, hl⟩ | ⟨pre, id2, post, ts, s3, e, s2, heq, hl, hf⟩
      · exact Or.inl ⟨t :: ts, s2, .cons h hl⟩
      · exact Or.inr ⟨id :: pre, id2, post, t :: ts, s3, e, s2, by simp [heq], .cons h hl, hf⟩

/-- C8: in `GetTrainees`, for an authenticated trainer with trainee id list `TraineeIDs`: if every
lookup succeeds, the response is 200 with one entry per id, in the order of the ids, the entry of
a trainee being first name, one space, last name, and the lookups made are those of all the ids,
in order; if the lookup of an id fails with `e` after the ids before it were looked up, the
handler returns `e`, writes no list, and has looked up exactly the ids before it and that id. -/
theorem GetTrainees_list (env : Env T σ) (ctx : Ctx T) (w : World T σ) (claims : MapClaims T)
    (f : T.Float64) (trainerModel : Trainer T) (s : σ) (hauth : Authenticated env ctx claims)
    (hf : claims "user_id" = .float64 f)
    (hl : env.GetTrainerByUserID (T.toUint f) w.state = (.ok trainerModel, s)) :
    (∀ ts s2, Lookups env trainerModel.TraineeIDs s ts s2 →
      ts.length = trainerModel.TraineeIDs.length ∧
      GetTrainees env ctx w =
        (.response StatusOK (.trainees (ts.map traineeEntry)),
          ⟨s2, w.trace ++ ⟨.GetTrainerByUserID (T.toUint f), none⟩ ::
            trainerModel.TraineeIDs.map lookedUp⟩)) ∧
    (∀ pre id post ts s1 e s2, trainerModel.TraineeIDs = pre ++ id :: post →
      Lookups env pre s ts s1 → env.GetTraineeById (uint id) s1 = (.error e, s2) →
      GetTrainees env ctx w =
        (.error e,
          ⟨s2, w.trace ++ ⟨.GetTrainerByUserID (T.toUint f), none⟩ ::
            (pre.map lookedUp ++ [⟨.GetTraineeById (uint id), some e⟩])⟩)) := by
  obtain ⟨hdr, hp⟩ := hauth
  refine ⟨fun ts s2 hlk => ⟨Lookups_length hlk, ?_⟩, fun pre id post ts s1 e s2 hids hlk hfail => ?_⟩
  · simp [GetTrainees, invoke, hdr, hp, hf, hl, loop_of_Lookups hlk]
  · simp [GetTrainees, invoke, hdr, hp, hf, hl, hids, loop_of_failure hlk id post e s2 hfail]

/-- Witness of `GetTrainees_list`: trainer 7 has the trainees 11 and 12, Ann Lee and Bob Ray. -/
theorem GetTrainees_list_witness :
    Authenticated sampleEnv (sampleCtx "t7") (claimsOfUser 7) ∧
    Lookups sampleEnv sampleTrainer.TraineeIDs 0
      [⟨sampleUser 11 "Ann" "Lee"⟩, ⟨sampleUser 12 "Bob" "Ray"⟩] 0 ∧
    GetTrainees sampleEnv (sampleCtx "t7") sampleWorld =
      (.response StatusOK (.trainees [⟨"Ann Lee"⟩, ⟨"Bob Ray"⟩]),
        ⟨0, [⟨.GetTrainerByUserID 7, none⟩, ⟨.GetTraineeById 11, none⟩,
          ⟨.GetTraineeById 12, none⟩]⟩) := by
  have hauth : Authenticated sampleEnv (sampleCtx "t7") (claimsOfUser 7) := by
    simp [Authenticated, sampleCtx, sampleEnv]
  have hlk : Lookups sampleEnv sampleTrainer.TraineeIDs 0
      [⟨sampleUser 11 "Ann" "Lee"⟩, ⟨sampleUser 12 "Bob" "Ray"⟩] 0 :=
    @Lookups.cons _ _ _ 11 [12] 0 0 0 _ _ (by simp [sampleEnv, uint])
      (@Lookups.cons _ _ _ 12 [] 0 0 0 _ _ (by simp [sampleEnv, uint]) (.nil 0))
  have h := ((GetTrainees_list sampleEnv (sampleCtx "t7") sampleWorld (claimsOfUser 7) 7
    sampleTrainer 0 hauth (by simp [claimsOfUser]) (by simp [sampleEnv, sampleWorld])).1 _ _
    hlk).2
  exact ⟨hauth, hlk,
    by simpa [traineeEntry, sampleUser, sampleTrainer, lookedUp, uint, sampleWorld] using h⟩

/-! ## C5: the user id of the token -/

/-- C5, counterexample: `AddSportActivity` forwards no user id.  With the token of user 7 and
with the token of user 8 (who is not even a trainer) the same body gives the same single service
call `AddSportActivity`, and no trainer is looked up. -/
theorem AddSportActivity_ignores_user_id :
    Authenticated sampleEnv (sampleCtxActivity "t7" "squat") (claimsOfUser 7) ∧
    Authenticated sampleEnv (sampleCtxActivity "t8" "squat") (claimsOfUser 8) ∧
    AddSportActivity sampleEnv (sampleCtxActivity "t7" "squat") sampleWorld =
      (.response StatusOK (.response ⟨"Sport Activity Added successfully", true, 1⟩),
        ⟨1, [⟨.AddSportActivity "squat", none⟩]⟩) ∧
    AddSportActivity sampleEnv (sampleCtxActivity "t8" "squat") sampleWorld =
      AddSportActivity sampleEnv (sampleCtxActivity "t7" "squat") sampleWorld := by
  refine ⟨by simp [Authenticated, sampleCtxActivity, sampleCtx, sampleEnv],
    by simp [Authenticated, sampleCtxActivity, sampleCtx, sampleEnv], ?_, ?_⟩ <;>
    simp [AddSportActivity, invoke, sampleCtxActivity, sampleCtx, sampleEnv, sampleWorld]

theorem loop_trace (env : Env T σ) (ids : List Int) (acc : List dto.TraineeInTrainerPage)
    (w : World T σ) : ∃ rest, (GetTrainees.loop env ids acc w).2.trace = w.trace ++ rest := by
  obtain ⟨rest, h, -⟩ := loop_errorsFinal env ids acc w
  exact ⟨rest, h⟩

/-- C5, amended: when the token is accepted and its `user_id` claim is the number `f`, the eight
handlers that read the claim forward `uint(f)`: it is the argument of the first service call,
`GetTrainerByUserID`, in `GetTrainerProfile`, `GetTrainees`, `GetAllRequests`, `SetPrice`,
`CreateTrainingProgram` and `GetWeekPlanTrainer`, and in `EditProfile` once the body parses and
validates; it is the `UserID` of the report given to `AddReport`.  After a successful lookup the
next call acts for the trainer found: `EditTrainerProfile` on its `ID`, `SetPrice` and
`CreateTrainingProgram` on a payload with its `ID` as `TrainerID`, `GetRequests` on the trainer. -/
theorem user_id_forwarded (env : Env T σ) (ctx : Ctx T) (w : World T σ) (claims : MapClaims T)
    (f : T.Float64) (hauth : Authenticated env ctx claims)
    (hf : claims "user_id" = .float64 f) :
    (∀ h ∈ [Handler.GetTrainerProfile, .GetTrainees, .GetAllRequests, .SetPrice,
        .CreateTrainingProgram, .GetWeekPlanTrainer],
      FirstCallIs w (h.run env ctx w) (.GetTrainerByUserID (T.toUint f))) ∧
    (∀ p, ctx.BodyParserUserEdit = .ok p → env.ValidateUser (.userEdit p) = none →
      FirstCallIs w (EditProfile env ctx w) (.GetTrainerByUserID (T.toUint f))) ∧
    (∀ p, ctx.BodyParserReport = .ok p →
      ∃ err, (AddReport env ctx w).2.trace =
        w.trace ++ [⟨.AddReport ⟨T.toUint f, p.fields⟩, err⟩]) ∧
    ∀ trainerModel s, env.GetTrainerByUserID (T.toUint f) w.state = (.ok trainerModel, s) →
      (∀ p, ctx.BodyParserUserEdit = .ok p → env.ValidateUser (.userEdit p) = none →
        ∃ err, (EditProfile env ctx w).2.trace =
          w.trace ++ [⟨.GetTrainerByUserID (T.toUint f), none⟩,
            ⟨.EditTrainerProfile trainerModel.ID p, err⟩]) ∧
      (∀ p, ctx.BodyParserTrainerSetPrice = .ok p →
        env.ValidateUser (.trainerSetPrice ⟨trainerModel.ID, p.fields⟩) = none →
        ∃ err, (SetPrice env ctx w).2.trace =
          w.trace ++ [⟨.GetTrainerByUserID (T.toUint f), none⟩,
            ⟨.SetPrice ⟨trainerModel.ID, p.fields⟩, err⟩]) ∧
      (∀ p, ctx.BodyParserTrainingProgram = .ok p →
        env.ValidateUser (.trainingProgram ⟨trainerModel.ID, p.fields⟩) = none →
        ∃ err, (CreateTrainingProgram env ctx w).2.trace =
          w.trace ++ [⟨.GetTrainerByUserID (T.toUint f), none⟩,
            ⟨.CreateTrainingProgram ⟨trainerModel.ID, p.fields⟩, err⟩]) ∧
      ∃ err, (GetAllRequests env ctx w).2.trace =
        w.trace ++ [⟨.GetTrainerByUserID (T.toUint f), none⟩, ⟨.GetRequests trainerModel, err⟩]
    := by
  obtain ⟨hdr, hp⟩ := hauth
  refine ⟨?_, ?_, ?_, ?_⟩
  · intro h hmem
    rcases hl : env.GetTrainerByUserID (T.toUint f) w.state with ⟨e | tm, s⟩
    · refine ⟨some e, [], ?_⟩
      simp only [List.mem_cons, List.mem_singleton, List.not_mem_nil, or_false] at hmem
      rcases hmem with rfl | rfl | rfl | rfl | rfl | rfl <;>
        simp [Handler.run, GetTrainerProfile, GetTrainees, GetAllRequests, SetPrice,
          CreateTrainingProgram, GetWeekPlanTrainer, invoke, hdr, hp, hf, hl]
    · simp only [List.mem_cons, List.mem_singleton, List.not_mem_nil, or_false] at hmem
      rcases hmem with rfl | rfl | rfl | rfl | rfl | rfl
      · exact ⟨none, [], by simp [Handler.run, GetTrainerProfile, invoke, hdr, hp, hf, hl]⟩
      · obtain ⟨rest, hr⟩ := loop_trace env tm.TraineeIDs []
          ⟨s, w.trace ++ [⟨.GetTrainerByUserID (T.toUint f), none⟩]⟩
        exact ⟨none, rest, by simpa [Handler.run, GetTrainees, invoke, hdr, hp, hf, hl] using hr⟩
      · rcases hr : env.GetRequests tm s with ⟨e | r, s2⟩ <;>
          simp [FirstCallIs, Handler.run, GetAllRequests, invoke, hdr, hp, hf, hl, hr]
      · simp only [FirstCallIs, Handler.run, SetPrice, hdr, hp, hf]
        repeat' split
        all_goals simp_all [invoke_ok_iff, invoke_error_iff]
      · simp only [FirstCallIs, Handler.run, CreateTrainingProgram, hdr, hp, hf]
        repeat' split
        all_goals simp_all [invoke_ok_iff, invoke_error_iff]
      · exact ⟨none, [], by simp [Handler.run, GetWeekPlanTrainer, invoke, hdr, hp, hf, hl]⟩
  · intro p hb hv
    simp only [FirstCallIs, EditProfile, hdr, hp, hf, hb, hv]
    repeat' split
    all_goals simp_all [invoke_ok_iff, invoke_error_iff]
  · intro p hb
    rcases hr : env.AddReport ⟨T.toUint f, p.fields⟩ w.state with ⟨e | r, s⟩ <;>
      simp [AddReport, invoke, hdr, hp, hf, hb, hr]
  · intro tm s hl
    refine ⟨fun p hb hv => ?_, fun p hb hv => ?_, fun p hb hv => ?_, ?_⟩
    · rcases hr : env.EditTrainerProfile tm.ID p s with ⟨e | r, s2⟩ <;>
        simp [EditProfile, invoke, hdr, hp, hf, hb, hv, hl, hr]
    · rcases hr : env.SetPrice ⟨tm.ID, p.fields⟩ s with ⟨e | r, s2⟩ <;>
        simp [SetPrice, invoke, hdr, hp, hf, hb, hv, hl, hr]
    · rcases hr : env.CreateTrainingProgram ⟨tm.ID, p.fields⟩ s with ⟨e | r, s2⟩ <;>
        simp [CreateTrainingProgram, invoke, hdr, hp, hf, hb, hv, hl, hr]
    · rcases hr : env.GetRequests tm s with ⟨e | r, s2⟩ <;>
        simp [GetAllRequests, invoke, hdr, hp, hf, hl, hr]

/-- Witness of `user_id_forwarded`: with the token of user 7, `AddReport` is given a report
whose `UserID` is 7, whatever `UserID` the body carried. -/
theorem user_id_forwarded_witness :
    Authenticated sampleEnv (sampleCtxReport "t7" ⟨99, "late"⟩) (claimsOfUser 7) ∧
    ∃ err, (AddReport sampleEnv (sampleCtxReport "t7" ⟨99, "late"⟩) sampleWorld).2.trace =
      sampleWorld.trace ++ [⟨.AddReport ⟨7, "late"⟩, err⟩] :=
  have hauth : Authenticated sampleEnv (sampleCtxReport "t7" ⟨99, "late"⟩) (claimsOfUser 7) := by
    simp [Authenticated, sampleCtxReport, sampleCtx, sampleEnv]
  ⟨hauth, (user_id_forwarded sampleEnv (sampleCtxReport "t7" ⟨99, "late"⟩) sampleWorld
    (claimsOfUser 7) 7 hauth (by simp [claimsOfUser])).2.2.1 ⟨99, "late"⟩ rfl⟩

/-! ## C9: identity fields come from the token -/

end TrainerController
